import Mathlib

/-!
Shallow embedding of the mobile-navigation disclosure overlay of
`src/components/sections/Navigation.tsx` and the click handler of
`src/components/ui/Button.tsx`, together with theorems settling the
behavioural claims about dismissal, focus management, listener scoping,
scroll locking and analytics error handling.
-/

/-- Overlay state of the `Navigation` component, together with the pieces of
document-level state the component mutates.  `isOpen` is the
`isMobileMenuOpen` React state (line 79).  `bodyOverflow` is
`document.body.style.overflow`, written by the scroll-lock effect
(lines 184-194).  `lockCalls` and `unlockCalls` instrument the two branches
of that effect: a run of the `if` branch (sets `overflow` to `hidden`)
counts as one `lock()` call, a run of the `else` branch (sets `overflow`
to the empty string) counts as one `unlock()` call. -/
structure NavState where
  isOpen : Bool
  bodyOverflow : String
  lockCalls : Nat
  unlockCalls : Nat
deriving Repr, DecidableEq

/-- Body of the scroll-lock effect (Navigation.tsx lines 184-194): when the
menu is open it sets `document.body.style.overflow = 'hidden'`, otherwise it
resets it to the empty string.  The counters record which branch ran. -/
def scrollLockEffect (s : NavState) : NavState :=
  if s.isOpen then
    { s with bodyOverflow := "hidden", lockCalls := s.lockCalls + 1 }
  else
    { s with bodyOverflow := "", unlockCalls := s.unlockCalls + 1 }

/-- React `setIsMobileMenuOpen b`: React bails out when the new state equals
the current state (no re-render, no effect run); otherwise the state updates
and the scroll-lock effect, whose dependency array is `[isMobileMenuOpen]`,
re-runs against the new state. -/
def setIsMobileMenuOpen (b : Bool) (s : NavState) : NavState :=
  if s.isOpen = b then s
  else scrollLockEffect { s with isOpen := b }

/-- `closeMobileMenu` (Navigation.tsx lines 118-120): `setIsMobileMenuOpen(false)`. -/
def closeMobileMenu (s : NavState) : NavState :=
  setIsMobileMenuOpen false s

/-- `toggleMobileMenu` (Navigation.tsx lines 111-113):
`setIsMobileMenuOpen((prev) => !prev)`.  The functional update always flips
the flag, so the bail-out branch of `setIsMobileMenuOpen` never fires here. -/
def toggleMobileMenu (s : NavState) : NavState :=
  setIsMobileMenuOpen (!s.isOpen) s

/-- The opening transition, named `open()` by the spec.  The code has no
standalone open function: opening happens through `toggleMobileMenu` from
the closed state, which equals `setIsMobileMenuOpen true`
(see `toggle_closed_eq_openMenu`). -/
def openMenu (s : NavState) : NavState :=
  setIsMobileMenuOpen true s

/-- Post-mount state: the component mounts with `isMobileMenuOpen = false`
(line 79) and the scroll-lock effect's first run writes the empty string over
the already-empty `document.body.style.overflow`; it engages no lock, so the
lock/unlock instrumentation of the open/close event sequence starts at zero. -/
def initState : NavState :=
  { isOpen := false, bodyOverflow := "", lockCalls := 0, unlockCalls := 0 }

/-- Events a user can drive the controller with: the spec's `open()` and
`close()` plus the hamburger's `toggle()`. -/
inductive NavEvent where
  | doOpen
  | doClose
  | doToggle
deriving Repr, DecidableEq

/-- One controller step for one event. -/
def step (s : NavState) : NavEvent → NavState
  | NavEvent.doOpen => openMenu s
  | NavEvent.doClose => closeMobileMenu s
  | NavEvent.doToggle => toggleMobileMenu s

/-- Run a sequence of controller events. -/
def run (s : NavState) (es : List NavEvent) : NavState :=
  es.foldl step s

/-- A keyboard event as the handlers see it: `key` and `shiftKey`. -/
structure KeyEvent where
  key : String
  shiftKey : Bool
deriving Repr, DecidableEq

/-- Result of running one DOM event handler: the overlay state afterwards,
the element (if any) focused programmatically via `.focus()`, whether
`preventDefault` / `stopPropagation` were called, and the element id (if
any) passed to `scrollIntoView`. -/
structure HandlerResult where
  state : NavState
  focused : Option String
  defaultPrevented : Bool
  stoppedPropagation : Bool
  scrolledTo : Option String
deriving Repr, DecidableEq

/-- A handler run that touches nothing: no state change, no focus call, no
`preventDefault`, no `stopPropagation`, no scroll. -/
def inertResult (s : NavState) : HandlerResult :=
  { state := s, focused := none, defaultPrevented := false
    stoppedPropagation := false, scrolledTo := none }

/-- `handleEscape` (Navigation.tsx lines 126-132): on `key === 'Escape'`
while the menu is open it calls `closeMobileMenu()` and then
`hamburgerButtonRef.current?.focus()` — the optional chaining skips the
focus call when the ref is detached (`ham = none`).  The body calls neither
`stopPropagation` nor `preventDefault`. -/
def handleEscape (e : KeyEvent) (ham : Option String) (s : NavState) : HandlerResult :=
  if e.key = "Escape" ∧ s.isOpen then
    { state := closeMobileMenu s, focused := ham, defaultPrevented := false
      stoppedPropagation := false, scrolledTo := none }
  else
    inertResult s

/-- The backdrop's `onClick` (Navigation.tsx line 303) is `closeMobileMenu`:
it only flips the state; it makes no `.focus()` call and touches no other
DOM event API. -/
def handleBackdropClick (s : NavState) : HandlerResult :=
  { state := closeMobileMenu s, focused := none, defaultPrevented := false
    stoppedPropagation := false, scrolledTo := none }

/-- JavaScript `href.startsWith('#')`: the first character of the string is
the single character of the prefix. -/
def startsWithHash (href : String) : Bool :=
  match href.data with
  | [] => false
  | c :: _ => c == '#'

/-- JavaScript `href.substring(1)`: the string without its first character. -/
def dropFirst (href : String) : String :=
  String.mk (href.data.drop 1)

/-- `handleLinkClick` (Navigation.tsx lines 86-106).  The document is
modelled as the list of element ids present, so `getElementById` is a
`contains` test.  Only anchor hrefs (starting with `#`) are handled: the
handler prevents default, scrolls the target into view when it exists, and
sets `isMobileMenuOpen` to false.  A non-anchor href falls through the `if`
entirely: default navigation proceeds and the state is untouched. -/
def handleLinkClick (href : String) (doc : List String) (s : NavState) : HandlerResult :=
  if startsWithHash href then
    let targetId := dropFirst href
    { state := closeMobileMenu s, focused := none, defaultPrevented := true
      stoppedPropagation := false
      scrolledTo := if doc.contains targetId then some targetId else none }
  else
    inertResult s

/-- Result of `handleTabKey`: whether default was prevented and which
element (if any) received a programmatic `.focus()` call. -/
structure TabResult where
  defaultPrevented : Bool
  focused : Option String
deriving Repr, DecidableEq

/-- `handleTabKey` (Navigation.tsx lines 158-175).  `fs` is the focusable
set queried from the open panel, `active` is `document.activeElement`.
`firstElement` is `focusableElements[0]` (`fs.head?`), `lastElement` is
`focusableElements[length - 1]` (`fs.getLast?`); on an empty set both are
undefined and the optional-chained `.focus()` is skipped.  Shift+Tab on the
first element wraps to the last; plain Tab on the last wraps to the first;
everything else falls through untouched. -/
def handleTabKey (fs : List String) (active : String) (e : KeyEvent) : TabResult :=
  if e.key ≠ "Tab" then
    { defaultPrevented := false, focused := none }
  else if e.shiftKey then
    if fs.head? = some active then
      { defaultPrevented := true, focused := fs.getLast? }
    else
      { defaultPrevented := false, focused := none }
  else
    if fs.getLast? = some active then
      { defaultPrevented := true, focused := fs.head? }
    else
      { defaultPrevented := false, focused := none }

/-- Which document-level keydown listeners are currently attached: the
escape handler (Navigation.tsx lines 125-136) and the tab-trap handler
(lines 141-179). -/
structure ListenerState where
  escListener : Bool
  tabListener : Bool
deriving Repr, DecidableEq

/-- Effect cleanup+setup cycle run whenever `isMobileMenuOpen` changes
(and once at mount).  React first runs the cleanups returned by the
previous effect runs (both remove their listener), then re-runs the effect
bodies: the escape effect (lines 125-136) attaches its keydown listener
unconditionally; the tab-trap effect (lines 141-179) returns early —
attaching nothing — unless the menu is open and `mobileMenuRef.current`
is non-null. -/
def effectCycle (isOpen menuRef : Bool) (l : ListenerState) : ListenerState :=
  let cleaned : ListenerState := { l with escListener := false, tabListener := false }
  let withEsc : ListenerState := { cleaned with escListener := true }
  if isOpen ∧ menuRef then { withEsc with tabListener := true } else withEsc

/-- Listener state after a sequence of renders; each entry of `tr` is the
`isMobileMenuOpen` value of one committed state change, with the menu panel
ref present. -/
def runListenerTrace (l : ListenerState) (tr : List Bool) : ListenerState :=
  tr.foldl (fun acc o => effectCycle o true acc) l

/-- Listener state right after mount: both effects have run once with
`isMobileMenuOpen = false`. -/
def initListeners : ListenerState :=
  effectCycle false true { escListener := false, tabListener := false }

/-- Behaviour of `window.dataLayer.push` when invoked. -/
inductive SinkBehavior where
  | ok
  | throws
deriving Repr, DecidableEq

/-- Observable outcome of one `Button.handleClick` run: whether the
analytics record was pushed and whether the `onClick` prop was invoked.
`handleClick` (Button.tsx lines 71-88) never calls `preventDefault`, so
default link navigation always proceeds. -/
structure ClickOutcome where
  pushed : Bool
  onClickInvoked : Bool
deriving Repr, DecidableEq

/-- JavaScript truthiness of the `href` prop: absent and empty-string hrefs
are falsy, so `!href` holds exactly then. -/
def jsTruthyHref (href : Option String) : Bool :=
  match href with
  | none => false
  | some h => if h = "" then false else true

/-- `Button.handleClick` (Button.tsx lines 71-88).  A disabled button
returns immediately.  With an `analyticsId` and a present
`window.dataLayer` the record is pushed — there is no try/catch around the
push, so a throwing sink aborts the handler with the exception escaping
(`Except.error`).  Finally `if (onClick && !href)` invokes the `onClick`
prop only when no truthy `href` was given.  `dataLayer = none` models both
an absent `window` and an absent `window.dataLayer`. -/
def buttonHandleClick (disabled : Bool) (analyticsId : Option String)
    (dataLayer : Option SinkBehavior) (hasOnClick : Bool) (href : Option String) :
    Except String ClickOutcome :=
  if disabled then
    Except.ok { pushed := false, onClickInvoked := false }
  else
    match analyticsId, dataLayer with
    | some _, some SinkBehavior.throws => Except.error "dataLayer.push threw"
    | some _, some SinkBehavior.ok =>
        Except.ok { pushed := true, onClickInvoked := hasOnClick && !(jsTruthyHref href) }
    | _, _ =>
        Except.ok { pushed := false, onClickInvoked := hasOnClick && !(jsTruthyHref href) }

/-- The Mobile Menu CTA button (Navigation.tsx lines 392-407): a `Button`
with `href = ctaButton.href`, an `onClick` closure that would run
`ctaButton.onClick?.()` and then `closeMobileMenu()`, and
`analyticsId = "mobile-nav-cta"`.  The overlay state changes only if
`Button.handleClick` actually invokes the closure. -/
def mobileCtaClick (ctaHref : String) (dataLayer : Option SinkBehavior) (s : NavState) :
    Except String (ClickOutcome × NavState) :=
  match buttonHandleClick false (some "mobile-nav-cta") dataLayer true (some ctaHref) with
  | Except.error msg => Except.error msg
  | Except.ok o => Except.ok (o, if o.onClickInvoked then closeMobileMenu s else s)

/-- A concrete open state used by witnesses and counterexamples: the state
reached from `initState` by one `open()` call. -/
def sOpen : NavState :=
  { isOpen := true, bodyOverflow := "hidden", lockCalls := 1, unlockCalls := 0 }

/-- The hamburger button opens via `toggleMobileMenu`; from the closed state
this is exactly the spec's `open()`. -/
theorem toggle_closed_eq_openMenu (s : NavState) (h : s.isOpen = false) :
    toggleMobileMenu s = openMenu s := by
  simp [toggleMobileMenu, openMenu, h]

/-- Scroll-lock bookkeeping invariant: the body overflow style always
mirrors `isOpen`, and the lock counter leads the unlock counter by exactly
one while open and by zero while closed. -/
def LockInv (s : NavState) : Prop :=
  s.bodyOverflow = (if s.isOpen then "hidden" else "") ∧
  s.lockCalls = s.unlockCalls + (if s.isOpen then 1 else 0)

theorem lockInv_init : LockInv initState := by
  simp [LockInv, initState]

theorem lockInv_step (s : NavState) (ev : NavEvent) (h : LockInv s) :
    LockInv (step s ev) := by
  obtain ⟨hov, hct⟩ := h
  cases ev <;>
    simp only [step, openMenu, closeMobileMenu, toggleMobileMenu,
      setIsMobileMenuOpen, scrollLockEffect] <;>
    cases hs : s.isOpen <;>
    simp_all [LockInv]

theorem lockInv_run (s : NavState) (es : List NavEvent) (h : LockInv s) :
    LockInv (run s es) := by
  induction es generalizing s with
  | nil => exact h
  | cons e es ih => exact ih (step s e) (lockInv_step s e h)

/-- Claim C6 (confirmed): across any sequence of open/close/toggle calls
starting from the mounted state, whenever `isOpen = false` the number of
`lock()` calls equals the number of `unlock()` calls and page scroll is
enabled (`body.style.overflow` is empty); whenever `isOpen = true` scroll
is disabled (`overflow = 'hidden'`). -/
theorem c6_lock_pairing (es : List NavEvent) :
    ((run initState es).isOpen = false →
      (run initState es).lockCalls = (run initState es).unlockCalls ∧
      (run initState es).bodyOverflow = "") ∧
    ((run initState es).isOpen = true →
      (run initState es).bodyOverflow = "hidden") := by
  have h := lockInv_run initState es lockInv_init
  obtain ⟨hov, hct⟩ := h
  constructor
  · intro hclosed
    rw [hclosed] at hov hct
    simpa using ⟨hct, hov⟩
  · intro hopenState
    rw [hopenState] at hov
    simpa using hov

/-- Witness for C6 at the concrete trace open-then-close: the resulting
state is closed with one lock and one unlock call and scroll re-enabled. -/
theorem c6_lock_pairing_witness :
    (run initState [NavEvent.doOpen, NavEvent.doClose]).isOpen = false ∧
    (run initState [NavEvent.doOpen, NavEvent.doClose]).lockCalls =
      (run initState [NavEvent.doOpen, NavEvent.doClose]).unlockCalls ∧
    (run initState [NavEvent.doOpen, NavEvent.doClose]).bodyOverflow = "" := by
  have h := (c6_lock_pairing [NavEvent.doOpen, NavEvent.doClose]).1 (by decide)
  exact ⟨by decide, h.1, h.2⟩

/-- Claim C7 (confirmed): `open()` is idempotent — a second consecutive
`open()` leaves the state exactly as after the first, with `isOpen = true`
and, from a closed state, exactly one net lock engaged; `close()` is
idempotent and on an already-closed controller is a no-op leaving the state
unchanged with no lock/unlock imbalance. -/
theorem c7_idempotence (s : NavState) :
    openMenu (openMenu s) = openMenu s ∧
    (openMenu s).isOpen = true ∧
    closeMobileMenu (closeMobileMenu s) = closeMobileMenu s ∧
    (s.isOpen = false → closeMobileMenu s = s) ∧
    (s.isOpen = false →
      (openMenu s).lockCalls = s.lockCalls + 1 ∧
      (openMenu s).unlockCalls = s.unlockCalls) := by
  cases hs : s.isOpen <;>
    simp_all [openMenu, closeMobileMenu, setIsMobileMenuOpen, scrollLockEffect]

/-- Witness for C7 at the mounted (closed) state. -/
theorem c7_idempotence_witness :
    openMenu (openMenu initState) = openMenu initState ∧
    closeMobileMenu initState = initState ∧
    (openMenu initState).lockCalls = initState.lockCalls + 1 := by
  have h := c7_idempotence initState
  exact ⟨h.1, h.2.2.2.1 (by decide), (h.2.2.2.2 (by decide)).1⟩

/-- Counterexample to claim C5 as stated: with the overlay open, an Escape
keydown closes the menu but `handleEscape` makes no `stopPropagation` call,
so propagation is not stopped. -/
theorem c5_escape_no_stop_propagation :
    sOpen.isOpen = true ∧
    (handleEscape { key := "Escape", shiftKey := false } (some "hamburger") sOpen).state.isOpen
      = false ∧
    ¬ (handleEscape { key := "Escape", shiftKey := false } (some "hamburger") sOpen).stoppedPropagation
      = true := by
  decide

/-- Claim C5 (amended): while `isOpen = true`, an Escape keydown calls
`close()` (so `isOpen` becomes false) and focuses the hamburger trigger
exactly when its ref is still attached, but it does not stop propagation of
the event. -/
theorem c5_escape_amended (e : KeyEvent) (ham : Option String) (s : NavState)
    (hk : e.key = "Escape") (ho : s.isOpen = true) :
    (handleEscape e ham s).state.isOpen = false ∧
    (handleEscape e ham s).focused = ham ∧
    (handleEscape e ham s).stoppedPropagation = false := by
  simp [handleEscape, hk, ho, closeMobileMenu, setIsMobileMenuOpen, scrollLockEffect]

/-- Witness for the amended C5 at a concrete open state with the trigger
attached. -/
theorem c5_escape_amended_witness :
    (handleEscape { key := "Escape", shiftKey := false } (some "hamburger") sOpen).state.isOpen
      = false ∧
    (handleEscape { key := "Escape", shiftKey := false } (some "hamburger") sOpen).focused
      = some "hamburger" ∧
    (handleEscape { key := "Escape", shiftKey := false } (some "hamburger") sOpen).stoppedPropagation
      = false :=
  c5_escape_amended { key := "Escape", shiftKey := false } (some "hamburger") sOpen
    (by decide) (by decide)

/-- Counterexample to claim C1 as stated: dismissing the open overlay via a
backdrop click does set `isOpen` to false, but it restores focus to nothing
— the backdrop handler is bare `closeMobileMenu` with no focus call — even
though the trigger is present in the document. -/
theorem c1_backdrop_no_focus_restore :
    sOpen.isOpen = true ∧
    (handleBackdropClick sOpen).state.isOpen = false ∧
    (handleBackdropClick sOpen).focused = none := by
  decide

/-- Claim C1 (amended): of the dismissal paths, only Escape restores focus
to the trigger (when its ref is attached).  Backdrop click and anchor-link
activation set `isOpen` to false without any focus restoration, and
non-anchor link activation does not close the overlay at all. -/
theorem c1_dismissal_paths_amended (s : NavState) (ham : Option String)
    (doc : List String) (href : String) (ho : s.isOpen = true) :
    ((handleEscape { key := "Escape", shiftKey := false } ham s).state.isOpen = false ∧
      (handleEscape { key := "Escape", shiftKey := false } ham s).focused = ham) ∧
    ((handleBackdropClick s).state.isOpen = false ∧
      (handleBackdropClick s).focused = none) ∧
    (startsWithHash href = true →
      (handleLinkClick href doc s).state.isOpen = false ∧
      (handleLinkClick href doc s).focused = none) ∧
    (startsWithHash href = false →
      (handleLinkClick href doc s).state.isOpen = true) := by
  refine ⟨?_, ?_, ?_, ?_⟩
  · simp [handleEscape, ho, closeMobileMenu, setIsMobileMenuOpen, scrollLockEffect]
  · simp [handleBackdropClick, closeMobileMenu, setIsMobileMenuOpen, scrollLockEffect, ho]
  · intro ha
    simp [handleLinkClick, ha, closeMobileMenu, setIsMobileMenuOpen, scrollLockEffect, ho]
  · intro ha
    simp [handleLinkClick, ha, inertResult, ho]

/-- Witness for the amended C1 at a concrete open state. -/
theorem c1_dismissal_paths_amended_witness :
    (handleBackdropClick sOpen).state.isOpen = false ∧
    (handleLinkClick "#pricing" ["pricing"] sOpen).state.isOpen = false ∧
    (handleLinkClick "/about" ["pricing"] sOpen).state.isOpen = true := by
  have h := c1_dismissal_paths_amended sOpen (some "hamburger") ["pricing"] "#pricing"
    (by decide)
  have h2 := c1_dismissal_paths_amended sOpen (some "hamburger") ["pricing"] "/about"
    (by decide)
  exact ⟨h.2.1.1, (h.2.2.1 (by decide)).1, h2.2.2.2 (by decide)⟩

/-- Counterexample to claim C2 as stated: activating a non-anchor link
(`/about`) while the overlay is open lets default navigation proceed, but
`close()` is never called — `isOpen` stays true (the close call sits inside
the anchor-only branch of `handleLinkClick`). -/
theorem c2_nonanchor_keeps_open :
    sOpen.isOpen = true ∧
    startsWithHash "/about" = false ∧
    (handleLinkClick "/about" [] sOpen).defaultPrevented = false ∧
    (handleLinkClick "/about" [] sOpen).state.isOpen = true := by
  decide

/-- Claim C2 (amended): for a link whose destination does not start with
`#`, activation lets default navigation proceed (no `preventDefault`) and
does not call `close()`: the handler is inert, leaving the overlay state —
in particular `isOpen` — unchanged. -/
theorem c2_nonanchor_amended (href : String) (doc : List String) (s : NavState)
    (h : startsWithHash href = false) :
    handleLinkClick href doc s = inertResult s ∧
    (handleLinkClick href doc s).defaultPrevented = false ∧
    (handleLinkClick href doc s).state = s := by
  simp [handleLinkClick, h, inertResult]

/-- Witness for the amended C2 at a concrete non-anchor link. -/
theorem c2_nonanchor_amended_witness :
    handleLinkClick "/about" [] sOpen = inertResult sOpen :=
  (c2_nonanchor_amended "/about" [] sOpen (by decide)).1

/-- Claim C8 (confirmed): activating an anchor link while the overlay is
open always sets `isOpen` to false; the target is scrolled into view
exactly when an element with the matching id exists in the document, and a
missing target causes no scroll and no error (`handleLinkClick` is a total
function — the miss is recovered locally by the `if (targetElement)`
guard). -/
theorem c8_anchor_dismissal (href : String) (doc : List String) (s : NavState)
    (ha : startsWithHash href = true) (ho : s.isOpen = true) :
    (handleLinkClick href doc s).state.isOpen = false ∧
    (handleLinkClick href doc s).defaultPrevented = true ∧
    (doc.contains (dropFirst href) = true →
      (handleLinkClick href doc s).scrolledTo = some (dropFirst href)) ∧
    (doc.contains (dropFirst href) = false →
      (handleLinkClick href doc s).scrolledTo = none) := by
  refine ⟨?_, ?_, fun hc => ?_, fun hc => ?_⟩ <;>
    simp [handleLinkClick, ha, closeMobileMenu, setIsMobileMenuOpen, scrollLockEffect, ho] <;>
    simp_all

/-- Witness for C8: `#pricing` with the `pricing` element present scrolls
to it and closes; `#missing` with no such element closes without a scroll. -/
theorem c8_anchor_dismissal_witness :
    (handleLinkClick "#pricing" ["pricing"] sOpen).state.isOpen = false ∧
    (handleLinkClick "#pricing" ["pricing"] sOpen).scrolledTo = some "pricing" ∧
    (handleLinkClick "#missing" ["pricing"] sOpen).state.isOpen = false ∧
    (handleLinkClick "#missing" ["pricing"] sOpen).scrolledTo = none := by
  have h1 := c8_anchor_dismissal "#pricing" ["pricing"] sOpen (by decide) (by decide)
  have h2 := c8_anchor_dismissal "#missing" ["pricing"] sOpen (by decide) (by decide)
  exact ⟨h1.1, h1.2.2.1 (by decide), h2.1, h2.2.2.2 (by decide)⟩

/-- Claim C4 (confirmed): for a non-empty focusable set while the overlay
is open, a Tab keydown with focus on the last element and no Shift moves
focus to the first element and prevents default; Shift+Tab with focus on
the first element moves focus to the last element and prevents default;
every other Tab press passes through natively — no `preventDefault`, no
programmatic focus move. -/
theorem c4_tab_trap (fs : List String) (a : String) (sh : Bool) (hne : fs ≠ []) :
    (sh = false → fs.getLast? = some a →
      handleTabKey fs a { key := "Tab", shiftKey := sh } =
        { defaultPrevented := true, focused := fs.head? } ∧ fs.head?.isSome = true) ∧
    (sh = true → fs.head? = some a →
      handleTabKey fs a { key := "Tab", shiftKey := sh } =
        { defaultPrevented := true, focused := fs.getLast? } ∧ fs.getLast?.isSome = true) ∧
    (sh = false → fs.getLast? ≠ some a →
      handleTabKey fs a { key := "Tab", shiftKey := sh } =
        { defaultPrevented := false, focused := none }) ∧
    (sh = true → fs.head? ≠ some a →
      handleTabKey fs a { key := "Tab", shiftKey := sh } =
        { defaultPrevented := false, focused := none }) := by
  refine ⟨fun hsh hl => ?_, fun hsh hf => ?_, fun hsh hl => ?_, fun hsh hf => ?_⟩ <;>
    subst hsh <;>
    simp_all [handleTabKey, List.head?_isSome, List.getLast?_isSome]

/-- Witness for C4 on the spec's example set `[A, B, C]`: Tab on `C` wraps
focus to `A` with default prevented, and Shift+Tab on `A` wraps focus to
`C` with default prevented. -/
theorem c4_tab_trap_witness :
    handleTabKey ["A", "B", "C"] "C" { key := "Tab", shiftKey := false } =
      { defaultPrevented := true, focused := some "A" } ∧
    handleTabKey ["A", "B", "C"] "A" { key := "Tab", shiftKey := true } =
      { defaultPrevented := true, focused := some "C" } := by
  have h1 := (c4_tab_trap ["A", "B", "C"] "C" false (by decide)).1 rfl (by decide)
  have h2 := (c4_tab_trap ["A", "B", "C"] "A" true (by decide)).2.1 rfl (by decide)
  exact ⟨by simpa using h1.1, by simpa using h2.1⟩

theorem runListenerTrace_append_single (l : ListenerState) (tr : List Bool) (o : Bool) :
    runListenerTrace l (tr ++ [o]) = effectCycle o true (runListenerTrace l tr) := by
  simp [runListenerTrace, List.foldl_append]

/-- Counterexample to claim C3 as stated: after opening and then closing
the menu, the overlay is in the Closed state yet the document-level keydown
listener of the escape effect is still attached — that effect attaches its
listener unconditionally on every run, including runs where
`isMobileMenuOpen` is false. -/
theorem c3_escape_listener_attached_closed :
    (runListenerTrace initListeners [true, false]).escListener = true := by
  decide

/-- Claim C3 (amended): across any sequence of open/close renders, the
tab-trap keydown listener is attached if and only if the overlay is Open
(it is attached on entry to Open and detached on entry to Closed), while
the escape keydown listener is re-registered on every transition and is
attached in the Closed state as well — it is never left detached, and it
guards on `isMobileMenuOpen` inside the handler instead. -/
theorem c3_listener_scope_amended (l : ListenerState) (tr : List Bool) (o : Bool) :
    (runListenerTrace l (tr ++ [o])).tabListener = o ∧
    (runListenerTrace l (tr ++ [o])).escListener = true := by
  rw [runListenerTrace_append_single]
  cases o <;> simp [effectCycle]

/-- Counterexample to claim C9 as stated: with an `analyticsId` present and
a `window.dataLayer` whose `push` throws, the exception escapes
`Button.handleClick` — there is no try/catch around the push, so the
failure propagates to the caller instead of being swallowed. -/
theorem c9_throwing_sink_propagates :
    buttonHandleClick false (some "nav-cta") (some SinkBehavior.throws) false
      (some "#contact") = Except.error "dataLayer.push threw" := rfl

/-- Claim C9 (amended): an absent analytics sink is tolerated — the push is
guarded by the `window.dataLayer` check, so the handler completes normally
without pushing; likewise when no `analyticsId` is given.  But a sink that
throws is not caught: when an `analyticsId` is present the exception
propagates out of `handleClick`, suppressing any subsequent `onClick`
invocation. -/
theorem c9_sink_amended (aid : Option String) (dl : Option SinkBehavior)
    (oc : Bool) (href : Option String) :
    (buttonHandleClick false aid none oc href =
      Except.ok { pushed := false, onClickInvoked := oc && !(jsTruthyHref href) }) ∧
    (buttonHandleClick false none dl oc href =
      Except.ok { pushed := false, onClickInvoked := oc && !(jsTruthyHref href) }) ∧
    (aid ≠ none → dl = some SinkBehavior.throws →
      buttonHandleClick false aid dl oc href = Except.error "dataLayer.push threw") := by
  refine ⟨?_, ?_, fun ha hd => ?_⟩
  · cases aid <;> rfl
  · cases dl <;> rfl
  · cases aid with
    | none => exact absurd rfl ha
    | some a => subst hd; rfl

/-- Witness for the amended C9: an absent sink leaves the CTA click
successful, and the throwing sink yields the propagated error. -/
theorem c9_sink_amended_witness :
    buttonHandleClick false (some "nav-cta") none true (some "#contact") =
      Except.ok { pushed := false, onClickInvoked := false } ∧
    buttonHandleClick false (some "nav-cta") (some SinkBehavior.throws) true
      (some "#contact") = Except.error "dataLayer.push threw" := by
  have h := c9_sink_amended (some "nav-cta") (some SinkBehavior.throws) true (some "#contact")
  exact ⟨by simpa [jsTruthyHref] using h.1, h.2.2 (by simp) rfl⟩

/-- Claim C10 (confirmed): a `Button` rendered with a non-empty `href`
never invokes its `onClick` prop — `handleClick` runs only the analytics
push and lets default link navigation proceed.  In particular the mobile
menu CTA, which passes both the CTA `href` and an `onClick` closure that
would close the menu, leaves the overlay state untouched when activated:
the closure never runs. -/
theorem c10_href_suppresses_onclick (h : String) (dl : Option SinkBehavior)
    (d oc : Bool) (aid : Option String) (s : NavState) (hne : h ≠ "") :
    (∀ o, buttonHandleClick d aid dl oc (some h) = Except.ok o →
      o.onClickInvoked = false) ∧
    (∀ o s₂, mobileCtaClick h dl s = Except.ok (o, s₂) →
      s₂ = s ∧ o.onClickInvoked = false) := by
  have htr : jsTruthyHref (some h) = true := by simp [jsTruthyHref, hne]
  constructor
  · intro o ho
    cases d with
    | true =>
        simp [buttonHandleClick] at ho
        simp [← ho]
    | false =>
        cases aid <;> cases dl <;>
          first
          | (simp [buttonHandleClick, htr] at ho; simp [← ho])
          | (rename_i b; cases b <;>
              simp [buttonHandleClick, htr] at ho <;> simp [← ho])
  · intro o s₂ ho
    cases dl with
    | none =>
        simp [mobileCtaClick, buttonHandleClick, htr] at ho
        obtain ⟨ho1, ho2⟩ := ho
        simp [← ho1, ← ho2]
    | some b =>
        cases b <;> simp [mobileCtaClick, buttonHandleClick, htr] at ho <;>
          obtain ⟨ho1, ho2⟩ := ho <;> simp [← ho1, ← ho2]

/-- Witness for C10: clicking the mobile CTA (href `#contact`) from the
open overlay leaves the menu open — the close-closure is never invoked. -/
theorem c10_href_suppresses_onclick_witness :
    mobileCtaClick "#contact" (some SinkBehavior.ok) sOpen =
      Except.ok ({ pushed := true, onClickInvoked := false }, sOpen) ∧
    sOpen = sOpen ∧
    ({ pushed := true, onClickInvoked := false } : ClickOutcome).onClickInvoked = false := by
  have he : mobileCtaClick "#contact" (some SinkBehavior.ok) sOpen =
      Except.ok ({ pushed := true, onClickInvoked := false }, sOpen) := by rfl
  exact ⟨he, (c10_href_suppresses_onclick "#contact" (some SinkBehavior.ok) false true
    (some "mobile-nav-cta") sOpen (by decide)).2 { pushed := true, onClickInvoked := false }
    sOpen he⟩
